import Mathlib

/-
Shallow embedding of the boss per-node container orchestration agent:
the agent RPC handlers (agent package), the container-config extension
options (opts package) and the peer-directory helpers, together with
theorems checking the specification's claims against them.
-/

deriving instance DecidableEq for Except

namespace Boss

/-- Media type of the serialized container record inside checkpoint images. -/
def MediaTypeContainerInfo : String := "application/vnd.boss.container.info.v1+json"

/-- OCI media type of an uncompressed layer tar (is.MediaTypeImageLayer). -/
def MediaTypeImageLayer : String := "application/vnd.oci.image.layer.v1.tar"

/-- OCI media type of a gzip-compressed layer tar (is.MediaTypeImageLayerGzip). -/
def MediaTypeImageLayerGzip : String := "application/vnd.oci.image.layer.v1.tar+gzip"

/-- containerd media type of a CRIU task checkpoint. -/
def MediaTypeContainerd1Checkpoint : String :=
  "application/vnd.containerd.container.criu.checkpoint.criu.v1"

/-- containerd media type of the runtime checkpoint-config blob, which Checkpoint filters out. -/
def MediaTypeContainerd1CheckpointConfig : String :=
  "application/vnd.containerd.container.checkpoint.config.v1+proto"

/-- Node label marking the master node (constant Master in the agent package). -/
def Master : String := "boss.io/master"

/-- Node label advertising the replicated-store port (constant StorePort). -/
def StorePort : String := "boss.io/store.port"

/-- Errors surfaced by the agent; external wraps collaborator and runtime errors. -/
inductive AgentErr
  | noID
  | noRef
  | noMaster
  | mediaTypeNotFound
  | serviceExistsOnTarget
  | addrFormat (addr : String)
  | external (msg : String)
deriving DecidableEq, Repr

/-- A cluster peer as seen through the membership layer: name, host:port address, labels. -/
structure Peer where
  name : String
  addr : String
  labels : List (String × String)
deriving DecidableEq, Repr

/-- Lookup of a label key, modelling a Go map access that distinguishes presence. -/
def labelLookup (ls : List (String × String)) (k : String) : Option String :=
  (ls.find? (fun kv => kv.1 == k)).map (fun kv => kv.2)

/-- Split a character list at its last colon, returning the parts before and after. -/
def splitLastColon : List Char → Option (List Char × List Char)
  | [] => none
  | c :: cs =>
    match splitLastColon cs with
    | some (h, p) => some (c :: h, p)
    | none => if c = ':' then some ([], cs) else none

/-- Model of net.SplitHostPort for bracket-free host:port addresses: split at the
last colon; an address without a colon is an error. -/
def splitHostPort (s : String) : Except AgentErr (String × String) :=
  match splitLastColon s.toList with
  | none => .error (.addrFormat s)
  | some (h, p) => .ok (String.mk h, String.mk p)

/-- Model of net.JoinHostPort: bracket the host when it contains a colon. -/
def joinHostPort (host port : String) : String :=
  if host.contains ':' then "[" ++ host ++ "]:" ++ port else host ++ ":" ++ port

/-- Whether a peer carries the master label. -/
def hasMasterLabel (p : Peer) : Bool := (labelLookup p.labels Master).isSome

/-- The master-discovery loop of New (non-master branch): the first peer carrying the
master label wins; its host is joined with its advertised store-port label (the empty
string when that label is missing); no labeled peer yields the NoMaster error. -/
def findMaster : List Peer → Except AgentErr String
  | [] => .error .noMaster
  | p :: ps =>
    if hasMasterLabel p then
      match splitHostPort p.addr with
      | .error e => .error e
      | .ok (host, _) => .ok (joinHostPort host ((labelLookup p.labels StorePort).getD ""))
    else findMaster ps

/-- Lines written by writeResolvConf: one nameserver line per peer, in list order;
an address that fails to split aborts with that error. -/
def writeResolvConf : List Peer → Except AgentErr (List String)
  | [] => .ok []
  | p :: ps =>
    match splitHostPort p.addr with
    | .error e => .error e
    | .ok (host, _) =>
      match writeResolvConf ps with
      | .error e => .error e
      | .ok rest => .ok (("nameserver " ++ host) :: rest)

/-- The membership-event handler installed by handleResolvConf: on every event it
rewrites the file from the peer list captured at startup plus self, ignoring the
peer set current at event time (which this model receives but the code never reads). -/
def resolvConfAfterEvent (startupPeers : List Peer) (self : Peer)
    (_currentPeers : List Peer) : Except AgentErr (List String) :=
  writeResolvConf (startupPeers ++ [self])

/-- An OCI descriptor, reduced to the fields the agent inspects. -/
structure Descriptor where
  mediaType : String
  refName : String
deriving DecidableEq, Repr

/-- getByMediaType: first manifest with the requested media type, else MediaTypeNotFound. -/
def getByMediaType (manifests : List Descriptor) (mt : String) : Except AgentErr Descriptor :=
  match manifests.find? (fun d => d.mediaType == mt) with
  | some d => .ok d
  | none => .error .mediaTypeNotFound

/-- The rw-layer diff descriptor produced inside Checkpoint: rootfs.CreateDiff is called
with diff.WithMediaType(is.MediaTypeImageLayer) and ref checkpoint-rw-<snapshot-key>,
so the returned descriptor carries the uncompressed layer media type. -/
def checkpointRwDesc (snapshotKey : String) : Descriptor :=
  { mediaType := MediaTypeImageLayer, refName := "checkpoint-rw-" ++ snapshotKey }

/-- Manifest list of the image index assembled by Checkpoint: the container-info blob,
then the rw-layer diff, then (live only) the task-checkpoint descriptors with the
runtime checkpoint-config descriptor filtered out. -/
def checkpointIndexManifests (id snapshotKey : String) (live : Bool)
    (taskDescs : List Descriptor) : List Descriptor :=
  [{ mediaType := MediaTypeContainerInfo, refName := id ++ "-container-info" },
    checkpointRwDesc snapshotKey]
  ++ (if live then
        taskDescs.filter (fun d => d.mediaType != MediaTypeContainerd1CheckpointConfig)
      else [])

/-- Restore locates the rw-layer diff in the decoded index by the gzip layer media type. -/
def restoreRwLookup (manifests : List Descriptor) : Except AgentErr Descriptor :=
  getByMediaType manifests MediaTypeImageLayerGzip

/-- Serialized container config as carried in a types.Any extension value. -/
abbrev CfgData := String

/-- The two boss config extensions on a container record; a Go Any whose Value is nil
(including the zero Any returned for a missing map key) is modelled as none. -/
structure Extensions where
  current : Option CfgData
  last : Option CfgData
deriving DecidableEq, Repr

/-- opts.WithRollback: when the LastConfig extension has a non-nil value, install it as
CurrentConfig; otherwise leave the extensions untouched. LastConfig itself is not written. -/
def WithRollback (e : Extensions) : Extensions :=
  match e.last with
  | none => e
  | some d => { e with current := some d }

/-- opts.WithSetPreviousConfig: copy CurrentConfig into LastConfig. -/
def WithSetPreviousConfig (e : Extensions) : Extensions :=
  { e with last := e.current }

/-- Modelled from the spec: the config-swap change of the update pipeline (the change
implementations are not under src/): write the new config as CurrentConfig, preserving
the old one as LastConfig, built from the source's WithSetPreviousConfig. -/
def updateConfigSwap (newCfg : CfgData) (e : Extensions) : Extensions :=
  { WithSetPreviousConfig e with current := some newCfg }

/-- Signals the update path can send to the task. -/
inductive Sig
  | term
  | kill
deriving DecidableEq, Repr

/-- The environment of one Update call past the change-list construction: whether a task
exists, the outcome of each change in order, of the SIGTERM and SIGKILL deliveries, and
whether the task exits within the 10-second window. -/
structure UpdateEnv where
  taskPresent : Bool
  changeResults : List (Option AgentErr)
  termResult : Option AgentErr
  exitsWithin10s : Bool
  killResult : Option AgentErr
deriving DecidableEq, Repr

/-- Run the change list in order; the first failing change aborts with its error. -/
def runChanges : List (Option AgentErr) → Option AgentErr
  | [] => none
  | none :: rest => runChanges rest
  | some e :: _ => some e

/-- The signal-and-wait tail of Update: under pause run the changes then SIGTERM the task
(when present; with no task the closed wait channel makes the select return at once);
after unpause wait up to 10 seconds, and on timeout return the SIGKILL delivery result
as the call's error. The second component records the signals sent. -/
def updateSignalPhase (env : UpdateEnv) : Except AgentErr Unit × List Sig :=
  match runChanges env.changeResults with
  | some e => (.error e, [])
  | none =>
    if env.taskPresent then
      match env.termResult with
      | some e => (.error e, [.term])
      | none =>
        if env.exitsWithin10s then (.ok (), [.term])
        else
          match env.killResult with
          | some e => (.error e, [.term, .kill])
          | none => (.ok (), [.term, .kill])
    else (.ok (), [])

/-- The environment of Restore after the new container has been created: the outcome of
each remaining step, with the rw-layer lookup driven by the actual index manifests. -/
structure RestorePostEnv where
  infoResult : Option AgentErr
  manifests : List Descriptor
  mountsResult : Option AgentErr
  applyResult : Option AgentErr
  writeResult : Option AgentErr
  enableResult : Option AgentErr
  startResult : Option AgentErr
deriving Repr

/-- The tail of Restore after container creation, in source order: read info, locate the
gzip rw descriptor, resolve mounts, apply the diff, persist the config, enable and start
the unit. The boolean records whether the created container was deleted (with snapshot
cleanup) before returning; in the source only the config-persist failure does so. -/
def restorePostCreate (env : RestorePostEnv) : Except AgentErr Unit × Bool :=
  match env.infoResult with
  | some e => (.error e, false)
  | none =>
    match restoreRwLookup env.manifests with
    | .error e => (.error e, false)
    | .ok _ =>
      match env.mountsResult with
      | some e => (.error e, false)
      | none =>
        match env.applyResult with
        | some e => (.error e, false)
        | none =>
          match env.writeResult with
          | some e => (.error e, true)
          | none =>
            match env.enableResult with
            | some e => (.error e, false)
            | none =>
              match env.startResult with
              | some e => (.error e, false)
              | none => (.ok (), false)

/-- The wire-visible container info record, reduced to the fields the claims inspect;
absent fields keep their Go zero values. -/
structure ContainerInfo where
  id : String
  image : String := ""
  status : String := ""
  ip : String := ""
  cpu : Nat := 0
  memoryUsage : Nat := 0
  fsSize : Int := 0
  cfg : Option CfgData := none
  snapshots : List String := []
deriving DecidableEq, Repr

/-- Agent.List: assemble info for every container of the runtime in order; a container
whose info collection fails contributes an entry holding only its id and the synthetic
status string, all other fields left at their zero values. -/
def listContainers (cs : List (String × Except AgentErr ContainerInfo)) :
    List ContainerInfo :=
  cs.map fun c =>
    match c.2 with
    | .ok i => i
    | .error _ => { id := c.1, status := "list error" }

/-- A bind-mount source file tree as filepath.Walk visits it: regular files with sizes,
directories with children, and entries whose visit reports an error (symlink or
permission failures during the walk). -/
inductive Tree
  | file (size : Int)
  | dir (children : List Tree)
  | errEntry (msg : String)
deriving Repr

mutual

/-- The filepath.Walk callback of getBindSizes over one subtree: an errored entry aborts
with its error, directories contribute nothing themselves, file sizes are summed. -/
def walkSum : Tree → Except AgentErr Int
  | .errEntry msg => .error (.external msg)
  | .file size => .ok size
  | .dir children => walkSumList children

/-- The walk over a list of sibling entries, in order. -/
def walkSumList : List Tree → Except AgentErr Int
  | [] => .ok 0
  | t :: ts =>
    match walkSum t with
    | .error e => .error e
    | .ok a =>
      match walkSumList ts with
      | .error e => .error e
      | .ok b => .ok (a + b)

end

mutual

/-- A subtree with no errored entry. -/
def treeClean : Tree → Bool
  | .errEntry _ => false
  | .file _ => true
  | .dir children => treeListClean children

/-- Sibling lists with no errored entry. -/
def treeListClean : List Tree → Bool
  | [] => true
  | t :: ts => treeClean t && treeListClean ts

end

mutual

/-- Total size of the regular files in a subtree. -/
def treeSize : Tree → Int
  | .errEntry _ => 0
  | .file size => size
  | .dir children => treeListSize children

/-- Total size of the regular files under a sibling list. -/
def treeListSize : List Tree → Int
  | [] => 0
  | t :: ts => treeSize t + treeListSize ts

end

/-- What the filesystem reports for one bind-mount source: os.Open can fail (dangling
symlink or permission on the entry itself), and the subsequent Stat either fails, or
identifies a regular file with its size, or a directory with its walkable children. -/
inductive StatResult
  | statErr (msg : String)
  | fileInfo (size : Int)
  | dirInfo (children : List Tree)
deriving Repr

/-- One bind mount of the container config, with the filesystem behavior of its source. -/
structure BindMount where
  source : String
  openFails : Bool
  stat : StatResult
deriving Repr

/-- getBindSizes: for each mount source in order, an open failure is logged and the
source skipped; a stat failure aborts with its error; a regular file adds its size; a
directory is walked recursively, a walk error aborting, otherwise adding the sum of its
file sizes. -/
def getBindSizes : List BindMount → Except AgentErr Int
  | [] => .ok 0
  | m :: ms =>
    if m.openFails then getBindSizes ms
    else
      match m.stat with
      | .statErr msg => .error (.external msg)
      | .fileInfo size =>
        match getBindSizes ms with
        | .error e => .error e
        | .ok rest => .ok (size + rest)
      | .dirInfo children =>
        match walkSumList children with
        | .error e => .error e
        | .ok s =>
          match getBindSizes ms with
          | .error e => .error e
          | .ok rest => .ok (s + rest)

/-- Errors of the replicated KV client: the nil reply for a missing key, or a genuine
connection or protocol error. -/
inductive RedisErr
  | errNil
  | conn (msg : String)
deriving DecidableEq, Repr

/-- The replicated store as the agent reads it: the optional volume root and the set of
plain-HTTP registry hosts. -/
structure StoreState where
  volumeRoot : Option String
  plainRemotes : List String
deriving DecidableEq, Repr

/-- Redis GET of the volume-root key: a missing key yields the nil-reply error. -/
def storeGetVolumeRoot (s : StoreState) : Except RedisErr String :=
  match s.volumeRoot with
  | none => .error .errNil
  | some v => .ok v

/-- Redis SISMEMBER on the plain-remotes set: absence is false, never an error. -/
def storeIsPlainRemote (s : StoreState) (host : String) : Except RedisErr Bool :=
  .ok (s.plainRemotes.contains host)

/-- The volume-root read in Create and Restore: a nil reply leaves the root empty and is
not an error; any other error is returned to the caller. -/
def readVolumeRoot (reply : Except RedisErr String) : Except RedisErr String :=
  match reply with
  | .ok v => .ok v
  | .error .errNil => .ok ""
  | .error e => .error e

/-- The registry resolver configuration chosen by withPlainRemote. -/
structure Resolver where
  plainHTTP : Bool
deriving DecidableEq, Repr

/-- strings.SplitN(ref, "/", 2)[0]: the registry host segment of an image ref, the
part before the first slash (the whole ref when it has no slash). -/
def refRemote (ref : String) : String :=
  String.mk (ref.toList.takeWhile (fun c => c != '/'))

/-- withPlainRemote applied to the SISMEMBER reply for the ref's registry host: a nil
reply leaves the flag false; a genuine error is returned; otherwise the resolver uses
plain HTTP exactly when the reply is true. -/
def withPlainRemote (reply : Except RedisErr Bool) : Except RedisErr Resolver :=
  match reply with
  | .ok b => .ok { plainHTTP := b }
  | .error .errNil => .ok { plainHTTP := false }
  | .error e => .error e

/-- The environment of one Migrate call: whether the target already hosts the container,
the outcome of each orchestration step, and whether deletion of the source was requested. -/
structure MigrateEnv where
  targetHasContainer : Bool
  checkpointResult : Option AgentErr
  pushResult : Option AgentErr
  restoreResult : Option AgentErr
  reqDelete : Bool
  deleteResult : Option AgentErr
deriving DecidableEq, Repr

/-- Outcome of Migrate: the returned result, and whether the checkpoint image named by
the request's ref was deleted from the local image service before returning. -/
structure MigrateOutcome where
  result : Except AgentErr Unit
  localImageDeleted : Bool
deriving DecidableEq, Repr

/-- Agent.Migrate: fail if the target already hosts the id; run Checkpoint; once it has
succeeded, a deferred local image delete for the ref runs on every return path; then
push, remote restore, and (when requested) local delete, each aborting on error. -/
def migrate (env : MigrateEnv) : MigrateOutcome :=
  if env.targetHasContainer then
    { result := .error .serviceExistsOnTarget, localImageDeleted := false }
  else
    match env.checkpointResult with
    | some e => { result := .error e, localImageDeleted := false }
    | none =>
      match env.pushResult with
      | some e => { result := .error e, localImageDeleted := true }
      | none =>
        match env.restoreResult with
        | some e => { result := .error e, localImageDeleted := true }
        | none =>
          if env.reqDelete then
            match env.deleteResult with
            | some e => { result := .error e, localImageDeleted := true }
            | none => { result := .ok (), localImageDeleted := true }
          else { result := .ok (), localImageDeleted := true }

/-- C1: Checkpoint tags the rw-layer diff descriptor with the uncompressed layer media
type (is.MediaTypeImageLayer), not tar+gzip, while Restore searches the index for the
tar+gzip media type; so on every Checkpoint-produced index (live or not) the Restore
lookup fails with MediaTypeNotFound instead of finding the rw diff descriptor. -/
theorem c1_checkpoint_restore_rw_media_type :
    (checkpointRwDesc "web-snap").mediaType = "application/vnd.oci.image.layer.v1.tar" ∧
    (checkpointRwDesc "web-snap").mediaType ≠ MediaTypeImageLayerGzip ∧
    restoreRwLookup (checkpointIndexManifests "web" "web-snap" false []) =
      .error .mediaTypeNotFound ∧
    restoreRwLookup (checkpointIndexManifests "web" "web-snap" true
        [{ mediaType := MediaTypeContainerd1Checkpoint, refName := "criu-data" }]) =
      .error .mediaTypeNotFound := by
  refine ⟨rfl, by decide, by decide, by decide⟩

/-- C2 counterexample: Rollback does not write LastConfig = old CurrentConfig; starting
from CurrentConfig c1 and LastConfig c0, opts.WithRollback leaves LastConfig at c0
rather than the old CurrentConfig c1, so the operation is not a swap. -/
theorem c2_rollback_no_swap_counterexample :
    (WithRollback { current := some "c1", last := some "c0" }).last = some "c0" ∧
    (WithRollback { current := some "c1", last := some "c0" }).last ≠ some "c1" := by
  decide

/-- C2 (amended): Rollback, executed under pause, installs LastConfig as CurrentConfig
when one is present — leaving LastConfig itself unchanged — and is a no-op on the
extensions when no LastConfig is present; consequently after an Update config swap
followed by Rollback, CurrentConfig equals the pre-Update config. -/
theorem c2_rollback_amended (e : Extensions) (c newCfg : CfgData)
    (hcur : e.current = some c) :
    (e.last = none → WithRollback e = e) ∧
    (∀ d, e.last = some d → WithRollback e = { current := some d, last := some d }) ∧
    (WithRollback (updateConfigSwap newCfg e)).current = some c ∧
    (WithRollback (updateConfigSwap newCfg e)).last = some c := by
  rcases e with ⟨cur, last⟩
  simp only at hcur
  subst hcur
  refine ⟨?_, ?_, ?_, ?_⟩
  · intro h
    simp only at h
    subst h
    rfl
  · intro d h
    simp only at h
    subst h
    rfl
  · rfl
  · rfl

/-- C2 witness: the amended rollback semantics evaluated at concrete configs. -/
theorem c2_rollback_amended_witness :
    (WithRollback { current := some "c0", last := none } =
      { current := some "c0", last := none }) ∧
    (WithRollback { current := some "c1", last := some "c0" } =
      { current := some "c0", last := some "c0" }) ∧
    (WithRollback (updateConfigSwap "c1" { current := some "c0", last := none })).current =
      some "c0" :=
  have h1 := c2_rollback_amended { current := some "c0", last := none } "c0" "c1" rfl
  have h2 := c2_rollback_amended { current := some "c1", last := some "c0" } "c1" "c2" rfl
  ⟨h1.1 rfl, h2.2.1 "c0" rfl, h1.2.2.1⟩

/-- C3 counterexample: with a successful change list and a task that ignores SIGTERM
for the 10-second window, a failing SIGKILL delivery makes Update return that delivery
error rather than success, though SIGKILL was sent. -/
theorem c3_update_timeout_counterexample :
    (updateSignalPhase
        { taskPresent := true, changeResults := [none], termResult := none,
          exitsWithin10s := false, killResult := some (.external "kill failed") }).2 =
      [.term, .kill] ∧
    (updateSignalPhase
        { taskPresent := true, changeResults := [none], termResult := none,
          exitsWithin10s := false, killResult := some (.external "kill failed") }).1 ≠
      .ok () := by
  decide

/-- C3 (amended): when the change list and the SIGTERM delivery succeed but the task
does not exit within the 10-second window, Update sends SIGKILL and returns the result
of that delivery — success with no error exactly when the SIGKILL delivery itself
succeeds. -/
theorem c3_update_timeout_amended (env : UpdateEnv)
    (hc : runChanges env.changeResults = none) (ht : env.taskPresent = true)
    (hterm : env.termResult = none) (hw : env.exitsWithin10s = false) :
    (updateSignalPhase env).2 = [.term, .kill] ∧
    ((updateSignalPhase env).1 = .ok () ↔ env.killResult = none) := by
  cases hk : env.killResult <;>
    simp [updateSignalPhase, hc, ht, hterm, hw, hk]

/-- C3 witness: the amended timeout semantics evaluated at a concrete environment in
which the SIGKILL delivery succeeds. -/
theorem c3_update_timeout_amended_witness :
    (updateSignalPhase
        { taskPresent := true, changeResults := [none, none], termResult := none,
          exitsWithin10s := false, killResult := none }).2 = [.term, .kill] ∧
    ((updateSignalPhase
        { taskPresent := true, changeResults := [none, none], termResult := none,
          exitsWithin10s := false, killResult := none }).1 = .ok () ↔
      ({ taskPresent := true, changeResults := [none, none], termResult := none,
         exitsWithin10s := false, killResult := none } : UpdateEnv).killResult = none) :=
  c3_update_timeout_amended _ rfl rfl rfl rfl

/-- C4 counterexample: a mounts-resolution failure occurring after the container was
created makes Restore return the error without deleting the created container. -/
theorem c4_restore_cleanup_counterexample :
    restorePostCreate
        { infoResult := none,
          manifests := [{ mediaType := MediaTypeImageLayerGzip, refName := "rw" }],
          mountsResult := some (.external "mounts failed"), applyResult := none,
          writeResult := none, enableResult := none, startResult := none } =
      (.error (.external "mounts failed"), false) := by
  decide

/-- C4 (amended): in the Restore tail the created container is deleted with snapshot
cleanup exactly when the failing step is persisting the config to the store; failures
reading info, locating the gzip rw descriptor, resolving mounts, applying the diff, or
enabling or starting the unit return their error leaving the new container behind. -/
theorem c4_restore_cleanup_amended (env : RestorePostEnv) :
    ((restorePostCreate env).2 = true ↔
      (env.infoResult = none ∧ (∃ d, restoreRwLookup env.manifests = .ok d) ∧
        env.mountsResult = none ∧ env.applyResult = none ∧ env.writeResult ≠ none)) ∧
    ((restorePostCreate env).1 = .ok () ↔
      (env.infoResult = none ∧ (∃ d, restoreRwLookup env.manifests = .ok d) ∧
        env.mountsResult = none ∧ env.applyResult = none ∧ env.writeResult = none ∧
        env.enableResult = none ∧ env.startResult = none)) := by
  rcases env with ⟨info, mans, mounts, app, wr, en, st⟩
  cases h : restoreRwLookup mans <;>
    cases info <;> cases mounts <;> cases app <;> cases wr <;> cases en <;> cases st <;>
      simp_all [restorePostCreate]

/-- C5: master discovery in New on a non-master node — with no labeled peer it fails
with the NoMaster error, and otherwise the first peer in enumeration order carrying the
master label is selected (whether or not others follow), joining its host with its
store-port label. -/
theorem c5_find_master (pre : List Peer) (p : Peer) (post : List Peer)
    (host port : String)
    (hpre : ∀ q ∈ pre, hasMasterLabel q = false)
    (hp : hasMasterLabel p = true)
    (hsplit : splitHostPort p.addr = .ok (host, port)) :
    findMaster (pre ++ p :: post) =
      .ok (joinHostPort host ((labelLookup p.labels StorePort).getD "")) ∧
    ∀ qs : List Peer, (∀ q ∈ qs, hasMasterLabel q = false) →
      findMaster qs = .error .noMaster := by
  constructor
  · induction pre with
    | nil => simp [findMaster, hp, hsplit]
    | cons q qs ih =>
      have hq := hpre q (by simp)
      simp only [List.cons_append, findMaster, hq, Bool.false_eq_true, if_false]
      exact ih fun r hr => hpre r (by simp [hr])
  · intro qs
    induction qs with
    | nil => intro _; rfl
    | cons q rest ih =>
      intro hqs
      have hq := hqs q (by simp)
      simp only [findMaster, hq, Bool.false_eq_true, if_false]
      exact ih fun r hr => hqs r (by simp [hr])

/-- C5 witness: discovery evaluated on a peer set with two labeled masters (the first in
order wins) and on a peer set with none (NoMaster). -/
theorem c5_find_master_witness :
    findMaster
        [⟨"n0", "10.0.0.1:7946", []⟩,
          ⟨"m1", "10.0.0.2:7946", [(Master, ""), (StorePort, "6379")]⟩,
          ⟨"m2", "10.0.0.3:7946", [(Master, ""), (StorePort, "6379")]⟩] =
      .ok (joinHostPort "10.0.0.2" "6379") ∧
    findMaster [⟨"n0", "10.0.0.1:7946", []⟩] = .error .noMaster :=
  have h := c5_find_master [⟨"n0", "10.0.0.1:7946", []⟩]
    ⟨"m1", "10.0.0.2:7946", [(Master, ""), (StorePort, "6379")]⟩
    [⟨"m2", "10.0.0.3:7946", [(Master, ""), (StorePort, "6379")]⟩]
    "10.0.0.2" "7946" (by decide) (by decide) (by decide)
  ⟨h.1, h.2 [⟨"n0", "10.0.0.1:7946", []⟩] (by decide)⟩

/-- C6: the resolv-conf event handler reuses the peer list captured at startup — after
a join event carrying a new peer the regenerated file still lists only the startup
peers plus self, not the then-current membership the claim requires. -/
theorem c6_resolv_conf_stale :
    resolvConfAfterEvent [⟨"a", "10.0.0.1:7946", []⟩] ⟨"s", "10.0.0.9:7946", []⟩
        [⟨"a", "10.0.0.1:7946", []⟩, ⟨"b", "10.0.0.2:7946", []⟩] =
      .ok ["nameserver 10.0.0.1", "nameserver 10.0.0.9"] ∧
    writeResolvConf
        ([⟨"a", "10.0.0.1:7946", []⟩, ⟨"b", "10.0.0.2:7946", []⟩] ++
          [⟨"s", "10.0.0.9:7946", []⟩]) =
      .ok ["nameserver 10.0.0.1", "nameserver 10.0.0.2", "nameserver 10.0.0.9"] ∧
    (["nameserver 10.0.0.1", "nameserver 10.0.0.9"] ≠
      ["nameserver 10.0.0.1", "nameserver 10.0.0.2", "nameserver 10.0.0.9"]) := by
  refine ⟨by decide, by decide, by decide⟩

/-- C7: List degrades per item — it returns one entry per container of the runtime, and
a container whose info collection fails is represented by an entry carrying only its id
and the status string, every other field left at its zero value. -/
theorem c7_list_tolerance (cs : List (String × Except AgentErr ContainerInfo))
    (i : Nat) (c : String × Except AgentErr ContainerInfo) (e : AgentErr)
    (hc : cs[i]? = some c) (he : c.2 = .error e) :
    (listContainers cs).length = cs.length ∧
    (listContainers cs)[i]? =
      some { id := c.1, image := "", status := "list error", ip := "", cpu := 0,
             memoryUsage := 0, fsSize := 0, cfg := none, snapshots := [] } := by
  constructor
  · simp [listContainers]
  · simp [listContainers, List.getElem?_map, hc, he]

/-- C7 witness: a runtime of three containers whose middle one has a corrupt config
extension lists three entries, the middle one the synthetic error entry. -/
theorem c7_list_tolerance_witness :
    (listContainers
        [("a", .ok { id := "a", status := "running" }),
          ("b", .error (.external "corrupt extension")),
          ("c", .ok { id := "c", status := "stopped" })]).length = 3 ∧
    (listContainers
        [("a", .ok { id := "a", status := "running" }),
          ("b", .error (.external "corrupt extension")),
          ("c", .ok { id := "c", status := "stopped" })])[1]? =
      some { id := "b", image := "", status := "list error", ip := "", cpu := 0,
             memoryUsage := 0, fsSize := 0, cfg := none, snapshots := [] } :=
  c7_list_tolerance _ 1 ("b", .error (.external "corrupt extension"))
    (.external "corrupt extension") rfl rfl

mutual

/-- A clean subtree walks to the sum of its file sizes. -/
theorem walkSum_clean : ∀ t : Tree, treeClean t = true → walkSum t = .ok (treeSize t)
  | .file s, _ => by simp [walkSum, treeSize]
  | .dir cs, h => by
    simp only [treeClean] at h
    simpa [walkSum, treeSize] using walkSumList_clean cs h
  | .errEntry m, h => by simp [treeClean] at h

/-- A clean sibling list walks to the sum of its file sizes. -/
theorem walkSumList_clean :
    ∀ ts : List Tree, treeListClean ts = true → walkSumList ts = .ok (treeListSize ts)
  | [], _ => by simp [walkSumList, treeListSize]
  | t :: ts, h => by
    simp only [treeListClean, Bool.and_eq_true] at h
    rw [walkSumList, walkSum_clean t h.1, walkSumList_clean ts h.2]
    simp [treeListSize]

end

/-- C8 counterexample: a permission error reported while walking a bind-mount source
directory is not skipped — getBindSizes aborts with it, and info (and hence Get)
propagates the failure. -/
theorem c8_bind_sizes_counterexample :
    getBindSizes
        [{ source := "/var/data", openFails := false,
           stat := .dirInfo [.file 3, .errEntry "permission denied"] }] =
      .error (.external "permission denied") := by
  simp [getBindSizes, walkSumList, walkSum]

/-- C8 (amended): only failures to open a bind-mount source are logged and the source
skipped; a clean directory is walked recursively with its file sizes summed; but a stat
failure on an opened source (and likewise an error reported during the walk) aborts the
computation with that error, which info and Get then propagate. -/
theorem c8_bind_sizes_amended :
    (∀ (m : BindMount) (ms : List BindMount), m.openFails = true →
      getBindSizes (m :: ms) = getBindSizes ms) ∧
    (∀ ts : List Tree, treeListClean ts = true →
      walkSumList ts = .ok (treeListSize ts)) ∧
    (∀ (msg src : String) (ms : List BindMount),
      getBindSizes ({ source := src, openFails := false, stat := .statErr msg } :: ms) =
        .error (.external msg)) := by
  refine ⟨?_, walkSumList_clean, ?_⟩
  · intro m ms h
    simp [getBindSizes, h]
  · intro msg src ms
    simp [getBindSizes]

/-- C8 witness: the amended bind-size semantics evaluated at concrete mounts and a
concrete directory tree. -/
theorem c8_bind_sizes_amended_witness :
    getBindSizes [{ source := "/x", openFails := true, stat := .fileInfo 5 }] =
      getBindSizes [] ∧
    walkSumList [.file 3, .dir [.file 4]] = .ok (treeListSize [.file 3, .dir [.file 4]]) ∧
    getBindSizes [{ source := "/y", openFails := false, stat := .statErr "eacces" }] =
      .error (.external "eacces") :=
  ⟨c8_bind_sizes_amended.1 _ _ rfl,
    c8_bind_sizes_amended.2.1 [.file 3, .dir [.file 4]]
      (by simp [treeListClean, treeClean]),
    c8_bind_sizes_amended.2.2 "eacces" "/y" []⟩

/-- C9: store reads treat a missing key as an empty value — an absent volume root is
read as the empty string, and a registry host absent from plain-remotes yields a
resolver with the plain-HTTP flag false (HTTPS) — while genuine connection errors from
either read surface to the caller. -/
theorem c9_store_missing_keys (s : StoreState) (ref : String) (msg : String)
    (hvr : s.volumeRoot = none)
    (hpr : s.plainRemotes.contains (refRemote ref) = false) :
    readVolumeRoot (storeGetVolumeRoot s) = .ok "" ∧
    withPlainRemote (storeIsPlainRemote s (refRemote ref)) = .ok { plainHTTP := false } ∧
    readVolumeRoot (.error (.conn msg)) = .error (.conn msg) ∧
    withPlainRemote (.error (.conn msg)) = .error (.conn msg) := by
  refine ⟨?_, ?_, rfl, rfl⟩
  · simp [storeGetVolumeRoot, hvr, readVolumeRoot]
  · show withPlainRemote (.ok (s.plainRemotes.contains (refRemote ref))) =
      .ok { plainHTTP := false }
    rw [hpr]
    rfl

/-- C9 witness: a store with no volume root and a plain-remotes set not containing the
ref's registry host, evaluated concretely. -/
theorem c9_store_missing_keys_witness :
    readVolumeRoot
        (storeGetVolumeRoot { volumeRoot := none, plainRemotes := ["registry.dev"] }) =
      .ok "" ∧
    withPlainRemote
        (storeIsPlainRemote { volumeRoot := none, plainRemotes := ["registry.dev"] }
          (refRemote "localhost:5000/img:1")) =
      .ok { plainHTTP := false } ∧
    readVolumeRoot (.error (.conn "refused")) = .error (.conn "refused") ∧
    withPlainRemote (.error (.conn "refused")) = .error (.conn "refused") :=
  c9_store_missing_keys { volumeRoot := none, plainRemotes := ["registry.dev"] }
    "localhost:5000/img:1" "refused" rfl (by decide)

/-- C10: once the local Checkpoint step of Migrate has succeeded, the deferred delete of
the local checkpoint image named by the request's ref runs on every return path — push
failure, remote restore failure, final local delete failure, and full success alike. -/
theorem c10_migrate_image_delete (env : MigrateEnv)
    (htarget : env.targetHasContainer = false)
    (hck : env.checkpointResult = none) :
    (migrate env).localImageDeleted = true := by
  rcases env with ⟨t, ck, pu, re, rd, de⟩
  simp only at htarget hck
  subst htarget hck
  cases pu <;> cases re <;> cases rd <;> cases de <;> simp [migrate]

/-- C10 witness: a migration whose registry push fails still deletes the local
checkpoint image before returning. -/
theorem c10_migrate_image_delete_witness :
    (migrate
        { targetHasContainer := false, checkpointResult := none,
          pushResult := some (.external "push failed"), restoreResult := none,
          reqDelete := true, deleteResult := none }).localImageDeleted = true :=
  c10_migrate_image_delete _ rfl rfl

end Boss
